import Mathlib

/-
Verification of the menu-driven CLI in oai_tools.py.

The embedding models the observable behaviour of the program: console
output and remote calls become explicit event lists, the read-eval loop
becomes a step function on input strings, and the persisted JSON store
becomes an explicit value passed in and out.  Remote responses (thread
ids, the deleted flag, file listings) are parameters, since the remote
service is an external collaborator.

Strings are handled as lists of characters.  Python builtins used by the
code are modelled over ASCII: str.lower maps A-Z to a-z, str.strip and
int() treat the ASCII whitespace characters; the PEP 515 underscore
grouping and non-ASCII digits accepted by the real int() are elided, as
are non-ASCII case mappings, none of which affect the menu keywords or
numeric choices the claims are about.
-/

set_option autoImplicit false

namespace OaiTools

/-! ### Python string primitives -/

/-- ASCII lowering of one character, the behaviour of str.lower on the
characters relevant to the dispatcher keywords. -/
def lowerChar (c : Char) : Char :=
  if 'A' ≤ c ∧ c ≤ 'Z' then Char.ofNat (c.toNat + 32) else c

/-- str.lower over a whole string. -/
def pyLower (s : List Char) : List Char := s.map lowerChar

/-- ASCII whitespace recognised by str.strip and by int() before parsing. -/
def isPySpace (c : Char) : Bool :=
  c == ' ' || c == '\t' || c == '\n' || c == '\r' || c == '\x0b' || c == '\x0c'

/-- str.strip: drop leading and trailing whitespace. -/
def stripWs (s : List Char) : List Char :=
  ((s.dropWhile isPySpace).reverse.dropWhile isPySpace).reverse

/-- Every character is an ASCII decimal digit. -/
def allDigits (cs : List Char) : Bool :=
  cs.all (fun c => decide ('0' ≤ c ∧ c ≤ '9'))

/-- Numeric value of a nonempty all-digit string. -/
def digitsToNat (cs : List Char) : Nat :=
  cs.foldl (fun a c => a * 10 + (c.toNat - 48)) 0

/-- Parse a nonempty run of digits, none on any other input. -/
def digitsVal (cs : List Char) : Option Nat :=
  if cs = [] then none
  else if allDigits cs then some (digitsToNat cs) else none

/-- Python int(s): strip whitespace, optional sign, nonempty digit run;
none models the ValueError raised on anything else. -/
def pyInt (s : List Char) : Option Int :=
  match stripWs s with
  | [] => none
  | c :: rest =>
      if c = '+' then (digitsVal rest).map (fun n => (n : Int))
      else if c = '-' then (digitsVal rest).map (fun n => -(n : Int))
      else (digitsVal (c :: rest)).map (fun n => (n : Int))

/-- str.strip packaged for String arguments. -/
def pyStrip (s : String) : String := String.mk (stripWs s.data)

/-! ### The menu and the dispatcher -/

/-- The eight callables bound in menu_structure, as abstract tokens; the
lambda-wrapped ones are the prompt-then-call bindings of the source. -/
inductive MenuAction where
  | listAssistants
  | listThreads
  | createThread
  | deleteThreadPrompt
  | listMessagesPrompt
  | listFiles
  | uploadFilePrompt
  | deleteFilePrompt
  deriving DecidableEq, BEq, Repr, Fintype

/-- menu_structure: ordered (label, bound action) pairs, none marking a
section header. -/
def menu_structure : List (String × Option MenuAction) := [
  ("🤖 Assistants", none),
  ("List Assistants", some MenuAction.listAssistants),
  ("🧵 Threads", none),
  ("List Threads", some MenuAction.listThreads),
  ("Create a Thread", some MenuAction.createThread),
  ("Delete a Thread", some MenuAction.deleteThreadPrompt),
  ("List Messages For Thread", some MenuAction.listMessagesPrompt),
  ("📄 Files", none),
  ("List Files", some MenuAction.listFiles),
  ("Upload a File", some MenuAction.uploadFilePrompt),
  ("Delete a File", some MenuAction.deleteFilePrompt)
]

/-- menu_functions = [func for _, func in menu_structure if func]. -/
def menu_functions : List MenuAction := menu_structure.filterMap Prod.snd

/-- The number display_menu prints next to an action-bound entry:
menu_functions.index(func) + 1. -/
def displayedNumber (f : MenuAction) : Nat :=
  List.indexOf f menu_functions + 1

/-- Observable events of one pass of the run loop. -/
inductive Event where
  | menuDisplayed
  | farewell
  | actionInvoked (i : Nat)
  | invalidChoiceMsg
  | enterNumberMsg
  deriving DecidableEq, Repr

/-- What an invoked action does, seen from the loop: return normally,
raise ValueError (caught by the except around the dispatch), or raise
anything else (not caught). -/
inductive ActionOutcome where
  | normal
  | raisesValueError
  | raisesOther
  deriving DecidableEq, Repr

/-- How one iteration leaves the loop. -/
inductive Control where
  | cont
  | exitLoop
  | propagate
  deriving DecidableEq, Repr

/-- One iteration of run on the input string s; oc i is the outcome of
invoking menu_functions[i].  Mirrors the body of the while loop: the
menu branch, the elif exit branch that breaks before the try block, then
the try block parsing int(choice) with its ValueError handler that stays
silent when the input was the menu keyword. -/
def runStep (s : List Char) (oc : Nat → ActionOutcome) : List Event × Control :=
  let low := pyLower s
  let pre : List Event := if low = "menu".data then [Event.menuDisplayed] else []
  if low = "exit".data then (pre ++ [Event.farewell], Control.exitLoop)
  else
    match pyInt s with
    | some n =>
        if 0 ≤ n - 1 ∧ n - 1 < (menu_functions.length : Int) then
          let i := (n - 1).toNat
          match oc i with
          | ActionOutcome.normal => (pre ++ [Event.actionInvoked i], Control.cont)
          | ActionOutcome.raisesValueError =>
              (pre ++ [Event.actionInvoked i] ++
                (if low = "menu".data then [] else [Event.enterNumberMsg]), Control.cont)
          | ActionOutcome.raisesOther =>
              (pre ++ [Event.actionInvoked i], Control.propagate)
        else (pre ++ [Event.invalidChoiceMsg], Control.cont)
    | none =>
        if low = "menu".data then (pre, Control.cont)
        else (pre ++ [Event.enterNumberMsg], Control.cont)

/-- The loop itself over a finite list of inputs: iterate runStep until
break or a propagating exception; cont with inputs exhausted means the
user never typed exit. -/
def runLoop (oc : Nat → ActionOutcome) : List (List Char) → List Event × Control
  | [] => ([], Control.cont)
  | s :: rest =>
      match runStep s oc with
      | (evs, Control.cont) =>
          let r := runLoop oc rest
          (evs ++ r.1, r.2)
      | (evs, Control.exitLoop) => (evs, Control.exitLoop)
      | (evs, Control.propagate) => (evs, Control.propagate)

/-! ### The thread record store -/

/-- JSON values as json.load / json.dump see them. -/
inductive JVal where
  | null
  | bool (b : Bool)
  | num (n : Int)
  | str (s : String)
  | arr (xs : List JVal)
  | obj (fields : List (String × JVal))

/-- dict.get k on a parsed JSON object (json.load keeps one value per
key, so first match suffices). -/
def jGet (fields : List (String × JVal)) (k : String) : Option JVal :=
  (fields.find? (fun p => p.1 == k)).map Prod.snd

/-- Python truthiness of a JSON value, as used by `if thread_ids:`. -/
def jTruthy : JVal → Bool
  | JVal.null => false
  | JVal.bool b => b
  | JVal.num n => n != 0
  | JVal.str s => s != ""
  | JVal.arr xs => !xs.isEmpty
  | JVal.obj fs => !fs.isEmpty

/-- What iterating a JSON value yields (enumerate over it); none models
the TypeError on non-iterables. -/
def jIter : JVal → Option (List JVal)
  | JVal.arr xs => some xs
  | JVal.str s => some (s.data.map (fun c => JVal.str (String.mk [c])))
  | JVal.obj fs => some (fs.map (fun p => JVal.str p.1))
  | _ => none

/-- The value create_thread will append to: data.get("thread_ids", [])
followed by .append, which needs a list; none models the AttributeError
raised when the parsed store is not an object or the value not a list. -/
def storedThreadIds (j : JVal) : Option (List JVal) :=
  match j with
  | JVal.obj fields =>
      match jGet fields "thread_ids" with
      | none => some []
      | some (JVal.arr xs) => some xs
      | some _ => none
  | _ => none

/-- create_thread after the remote call reported new_id: read the store
file if it exists, append the id, rewrite the whole document.  The
result is the new store contents; none models a propagating exception on
a malformed store. -/
def create_thread (store : Option JVal) (new_id : String) : Option JVal :=
  let ids? : Option (List JVal) :=
    match store with
    | none => some []
    | some j => storedThreadIds j
  ids?.map (fun ids =>
    JVal.obj [("thread_ids", JVal.arr (ids ++ [JVal.str new_id]))])

/-- Observable result of list_threads. -/
inductive ListThreadsResult where
  | noneStoredMsg
  | listed (ids : List JVal)
  | error

/-- list_threads: missing file or empty (falsy) stored list prints the
no-thread-IDs message; a truthy value is enumerated and printed; error
models the exceptions Python would raise on a malformed store. -/
def list_threads (store : Option JVal) : ListThreadsResult :=
  match store with
  | none => ListThreadsResult.noneStoredMsg
  | some (JVal.obj fields) =>
      let tids := (jGet fields "thread_ids").getD (JVal.arr [])
      if jTruthy tids then
        match jIter tids with
        | some xs => ListThreadsResult.listed xs
        | none => ListThreadsResult.error
      else ListThreadsResult.noneStoredMsg
  | some _ => ListThreadsResult.error

/-! ### delete_thread -/

/-- Observable events of delete_thread. -/
inductive ThreadDeleteEvent where
  | usageMsg
  | deletingMsg (id : String)
  | remoteDelete (id : String)
  | successMsg
  | problemMsg
  deriving DecidableEq, Repr

/-- delete_thread thread_id, where deleted is the flag of the remote
response: empty id prints the usage message and returns; otherwise one
remote delete happens and the flag picks the printed message. -/
def delete_thread (thread_id : String) (deleted : Bool) : List ThreadDeleteEvent :=
  if thread_id = "" then [ThreadDeleteEvent.usageMsg]
  else
    [ThreadDeleteEvent.deletingMsg thread_id, ThreadDeleteEvent.remoteDelete thread_id] ++
      (if deleted then [ThreadDeleteEvent.successMsg] else [ThreadDeleteEvent.problemMsg])

/-- Number of remote delete calls in a delete_thread event trace. -/
def threadDeleteCalls (evs : List ThreadDeleteEvent) : Nat :=
  (evs.filter (fun e =>
    match e with
    | ThreadDeleteEvent.remoteDelete _ => true
    | _ => false)).length

/-! ### upload_file -/

/-- The purpose_options dict of upload_file. -/
def purpose_options : List (String × String) := [("1", "assistants"), ("2", "fine-tune")]

/-- purpose_options.get(choice.strip(), "assistants"). -/
def purposeFor (choice : String) : String :=
  match purpose_options.find? (fun p => p.1 == pyStrip choice) with
  | some p => p.2
  | none => "assistants"

/-- Result of upload_file: empty path prints usage and returns, an
unopenable path raises out of the function, otherwise the file is
submitted with the chosen purpose. -/
inductive UploadResult where
  | noPathMsg
  | openRaised
  | submitted (purpose : String)
  deriving DecidableEq, Repr

/-- upload_file file_path with purpose-choice input choice; openable
says whether open(file_path, "rb") succeeds. -/
def upload_file (file_path : String) (openable : Bool) (choice : String) : UploadResult :=
  if file_path = "" then UploadResult.noPathMsg
  else if openable then UploadResult.submitted (purposeFor choice)
  else UploadResult.openRaised

/-! ### delete_file -/

/-- A file record of the remote listing. -/
structure RFile where
  filename : String
  id : String
  deriving DecidableEq, Repr

/-- Observable events of delete_file. -/
inductive FileDeleteEvent where
  | fetchMsg
  | noFilesMsg
  | invalidNumberMsg
  | invalidInputMsg
  | remoteDelete (id : String)
  | resultMsg (id : String) (deleted : Bool)
  deriving DecidableEq, Repr

/-- delete_file: with an explicit id, delete directly; with none, fetch
the listing files, prompt (inp is the entered line), parse with int()
(ValueError caught), range-check the 1-based index, and only then issue
the delete.  deleted is the flag of the remote delete response. -/
def delete_file (file_id : Option String) (files : List RFile) (inp : List Char)
    (deleted : Bool) : List FileDeleteEvent :=
  match file_id with
  | some fid => [FileDeleteEvent.remoteDelete fid, FileDeleteEvent.resultMsg fid deleted]
  | none =>
      if files.isEmpty then [FileDeleteEvent.fetchMsg, FileDeleteEvent.noFilesMsg]
      else
        FileDeleteEvent.fetchMsg ::
          (match pyInt inp with
          | none => [FileDeleteEvent.invalidInputMsg]
          | some n =>
              if 0 ≤ n - 1 ∧ n - 1 < (files.length : Int) then
                let f := files.getD (n - 1).toNat ⟨"", ""⟩
                [FileDeleteEvent.remoteDelete f.id, FileDeleteEvent.resultMsg f.id deleted]
              else [FileDeleteEvent.invalidNumberMsg])

/-- Number of remote delete calls in a delete_file event trace. -/
def fileDeleteCalls (evs : List FileDeleteEvent) : Nat :=
  (evs.filter (fun e =>
    match e with
    | FileDeleteEvent.remoteDelete _ => true
    | _ => false)).length

/-! ### Helper lemmas -/

theorem lowerChar_of_not_upper {c : Char} (h : ¬('A' ≤ c ∧ c ≤ 'Z')) :
    lowerChar c = c := by
  simp [lowerChar, h]

/-- A character whose lowering is a lowercase letter is not whitespace,
not a sign, and not a digit: exactly what int() would need to see. -/
theorem char_facts {c d : Char} (hlc : lowerChar c = d)
    (h1 : 'a' ≤ d) (h2 : d ≤ 'z') :
    isPySpace c = false ∧ c ≠ '+' ∧ c ≠ '-' ∧
      decide ('0' ≤ c ∧ c ≤ '9') = false := by
  refine ⟨?_, ?_, ?_, ?_⟩
  · cases hsp : isPySpace c with
    | false => rfl
    | true =>
        exfalso
        simp only [isPySpace, Bool.or_eq_true, beq_iff_eq] at hsp
        rcases hsp with ((((rfl | rfl) | rfl) | rfl) | rfl) | rfl <;>
          rw [lowerChar_of_not_upper (by decide)] at hlc <;>
          subst hlc <;> exact absurd h1 (by decide)
  · rintro rfl
    rw [lowerChar_of_not_upper (by decide)] at hlc
    subst hlc
    exact absurd h1 (by decide)
  · rintro rfl
    rw [lowerChar_of_not_upper (by decide)] at hlc
    subst hlc
    exact absurd h1 (by decide)
  · rw [decide_eq_false_iff_not]
    rintro ⟨hd1, hd2⟩
    have hnu : ¬('A' ≤ c ∧ c ≤ 'Z') := by
      rintro ⟨hA, _⟩
      exact absurd (le_trans hA hd2) (by decide)
    rw [lowerChar_of_not_upper hnu] at hlc
    subst hlc
    exact absurd (le_trans h1 hd2) (by decide)

theorem dropWhile_eq_self_of_all {α : Type} {p : α → Bool} (l : List α)
    (hl : ∀ c ∈ l, p c = false) : l.dropWhile p = l := by
  cases l with
  | nil => rfl
  | cons a t => simp [List.dropWhile, hl a (by simp)]

/-- A string whose lowering is a nonempty all-lowercase-letter word does
not parse as an integer: int() raises ValueError on it. -/
theorem pyInt_eq_none_of_lower_lcword (s w : List Char) (h : pyLower s = w)
    (hw : ∀ c ∈ w, 'a' ≤ c ∧ c ≤ 'z') (hne : w ≠ []) : pyInt s = none := by
  have hmem : ∀ c ∈ s, isPySpace c = false ∧ c ≠ '+' ∧ c ≠ '-' ∧
      decide ('0' ≤ c ∧ c ≤ '9') = false := by
    intro c hc
    have hlw : lowerChar c ∈ w := by
      rw [← h]
      exact List.mem_map_of_mem lowerChar hc
    exact char_facts rfl (hw _ hlw).1 (hw _ hlw).2
  have hsp : ∀ c ∈ s, isPySpace c = false := fun c hc => (hmem c hc).1
  have hstrip : stripWs s = s := by
    unfold stripWs
    rw [dropWhile_eq_self_of_all s hsp,
        dropWhile_eq_self_of_all s.reverse (fun c hc => hsp c (List.mem_reverse.mp hc)),
        List.reverse_reverse]
  have hsne : s ≠ [] := by
    intro hnil
    rw [hnil] at h
    exact hne (by simpa [pyLower] using h.symm)
  cases s with
  | nil => exact absurd rfl hsne
  | cons c rest =>
      have hc := hmem c (by simp)
      unfold pyInt
      rw [hstrip]
      simp only [if_neg hc.2.1, if_neg hc.2.2.1]
      have hdig : allDigits (c :: rest) = false := by
        simp only [allDigits, List.all_cons, hc.2.2.2, Bool.false_and]
      have hdv : digitsVal (c :: rest) = none := by
        unfold digitsVal
        rw [if_neg (List.cons_ne_nil c rest), if_neg (by simp [hdig])]
      rw [hdv]
      rfl

theorem pyInt_eq_none_of_lower_menu (s : List Char) (h : pyLower s = "menu".data) :
    pyInt s = none :=
  pyInt_eq_none_of_lower_lcword s "menu".data h (by decide) (by decide)

theorem pyInt_eq_none_of_lower_exit (s : List Char) (h : pyLower s = "exit".data) :
    pyInt s = none :=
  pyInt_eq_none_of_lower_lcword s "exit".data h (by decide) (by decide)

/-- Every iteration either continues, breaks because the lowered input
was the exit keyword, or propagates because the invoked action raised
something other than ValueError. -/
theorem runStep_snd_cases (s : List Char) (oc : Nat → ActionOutcome) :
    (runStep s oc).2 = Control.cont ∨
    ((runStep s oc).2 = Control.exitLoop ∧ pyLower s = "exit".data) ∨
    ((runStep s oc).2 = Control.propagate ∧ ∃ i, oc i = ActionOutcome.raisesOther) := by
  simp only [runStep]
  split
  · next hex => exact Or.inr (Or.inl ⟨rfl, hex⟩)
  · next hex =>
      split
      · next n hpi =>
          split
          · split
            · exact Or.inl rfl
            · exact Or.inl rfl
            · next hoc => exact Or.inr (Or.inr ⟨rfl, _, hoc⟩)
          · exact Or.inl rfl
      · next hpi =>
          split
          · exact Or.inl rfl
          · exact Or.inl rfl

/-! ### Claim theorems -/

/-- C1: every action-bound entry of menu_structure is displayed with the
number equal to its 1-based position among action-bound entries only
(headers excluded), and that displayed number, dispatched through the
numeric branch of run as index number minus one into menu_functions,
selects exactly that entry, so display numbering and the dispatch
table are in 1:1 positional correspondence. -/
theorem menu_numbering_dispatch_aligned :
    ∀ i (hi : i < menu_structure.length) (f : MenuAction),
      (menu_structure[i]).2 = some f →
        displayedNumber f = ((menu_structure.take i).filterMap Prod.snd).length + 1 ∧
        menu_functions[displayedNumber f - 1]? = some f := by
  decide

/-- Witness for C1 at the List Threads entry: it sits at index 3 of
menu_structure, is displayed with number 2, and menu_functions has it at
position 2 - 1. -/
theorem menu_numbering_dispatch_aligned_witness :
    displayedNumber MenuAction.listThreads = 2 ∧
    menu_functions[displayedNumber MenuAction.listThreads - 1]? =
      some MenuAction.listThreads := by
  have h := menu_numbering_dispatch_aligned 3 (by decide) MenuAction.listThreads (by decide)
  exact ⟨h.1.trans (by decide), h.2⟩

/-- C3: on an input whose lowering is the exit keyword, the loop prints
the farewell exactly once, invokes no action, and terminates: later
inputs are never processed. -/
theorem run_exit_farewell_terminates (s : List Char) (rest : List (List Char))
    (oc : Nat → ActionOutcome) (h : pyLower s = "exit".data) :
    runLoop oc (s :: rest) = ([Event.farewell], Control.exitLoop) := by
  have hstep : runStep s oc = ([Event.farewell], Control.exitLoop) := by
    simp only [runStep, h]
    rw [if_pos trivial]
    decide
  simp [runLoop, hstep]

/-- Witness for C3 at the uppercase input EXIT followed by another
queued input that is never reached. -/
theorem run_exit_farewell_terminates_witness :
    runLoop (fun _ => ActionOutcome.normal) ["EXIT".data, "1".data] =
      ([Event.farewell], Control.exitLoop) :=
  run_exit_farewell_terminates "EXIT".data ["1".data] (fun _ => ActionOutcome.normal)
    (by decide)

/-- C4: on an input whose lowering is the menu keyword, one iteration
redisplays the menu, invokes no action, prints no error message (the
ValueError from int on the keyword is swallowed by the menu guard of
the handler), and the loop continues. -/
theorem run_menu_redisplays (s : List Char) (oc : Nat → ActionOutcome)
    (h : pyLower s = "menu".data) :
    runStep s oc = ([Event.menuDisplayed], Control.cont) := by
  have hpi := pyInt_eq_none_of_lower_menu s h
  simp only [runStep, h, hpi]
  decide

/-- Witness for C4 at the mixed-case input Menu. -/
theorem run_menu_redisplays_witness :
    runStep "Menu".data (fun _ => ActionOutcome.normal) =
      ([Event.menuDisplayed], Control.cont) :=
  run_menu_redisplays "Menu".data (fun _ => ActionOutcome.normal) (by decide)

/-- C2 counterexample: the claim that no exception escapes the loop and
that the loop terminates only via the exit command is false on the code.
The try block catches only ValueError, so when the action selected by
input 7 (Upload a File, whose open call raises on a missing path, as the
last conjunct shows) raises such an error, the loop terminates by
propagation, not via exit. -/
theorem run_loop_exception_escapes_cex :
    (runLoop (fun _ => ActionOutcome.raisesOther) ["7".data]).2 = Control.propagate ∧
    Control.propagate ≠ Control.exitLoop ∧
    upload_file "missing.txt" false "1" = UploadResult.openRaised := by
  refine ⟨by decide, by decide, ?_⟩
  rfl

/-- C2 (amended): a failed numeric parse is caught and reported and
never leaves the loop; as long as no invoked action raises an exception
other than ValueError, nothing propagates out of the loop and the loop
terminates only when some input lowers to the exit keyword. -/
theorem run_loop_safety (oc : Nat → ActionOutcome) (inputs : List (List Char))
    (hno : ∀ i, oc i ≠ ActionOutcome.raisesOther) :
    (runLoop oc inputs).2 ≠ Control.propagate ∧
    ((runLoop oc inputs).2 = Control.exitLoop →
      ∃ s ∈ inputs, pyLower s = "exit".data) := by
  induction inputs with
  | nil => exact ⟨by simp [runLoop], by simp [runLoop]⟩
  | cons s rest ih =>
      have hc := runStep_snd_cases s oc
      rcases hr : runStep s oc with ⟨evs, c⟩
      rw [hr] at hc
      cases c with
      | cont =>
          constructor
          · simpa [runLoop, hr] using ih.1
          · intro hex
            simp only [runLoop, hr] at hex
            rcases ih.2 hex with ⟨t, ht, hlt⟩
            exact ⟨t, List.mem_cons_of_mem _ ht, hlt⟩
      | exitLoop =>
          refine ⟨by simp [runLoop, hr], fun _ => ?_⟩
          rcases hc with h1 | h2 | h3
          · simp at h1
          · exact ⟨s, by simp, h2.2⟩
          · simp at h3
      | propagate =>
          rcases hc with h1 | h2 | h3
          · simp at h1
          · simp at h2
          · exact absurd h3.2.choose_spec (hno _)

/-- Witness for C2 (amended) on one exit input with actions that never
raise. -/
theorem run_loop_safety_witness :
    (runLoop (fun _ => ActionOutcome.normal) ["exit".data]).2 ≠ Control.propagate ∧
    ((runLoop (fun _ => ActionOutcome.normal) ["exit".data]).2 = Control.exitLoop →
      ∃ s ∈ ["exit".data], pyLower s = "exit".data) :=
  run_loop_safety (fun _ => ActionOutcome.normal) ["exit".data]
    (fun _ h => ActionOutcome.noConfusion h)

/-- C5: a numeric input n within 1..8 (8 the number of bound actions)
invokes exactly the action stored at index n - 1 of menu_functions and
continues; a numeric input out of that range prints the invalid-choice
message and continues; a non-numeric input that is neither keyword
prints the enter-a-number message and continues. -/
theorem run_numeric_dispatch (s : List Char) (oc : Nat → ActionOutcome) :
    (∀ n : Int, pyInt s = some n →
      ((1 ≤ n ∧ n ≤ (menu_functions.length : Int)) →
        runStep s (fun _ => ActionOutcome.normal) =
          ([Event.actionInvoked (n - 1).toNat], Control.cont)) ∧
      (¬(1 ≤ n ∧ n ≤ (menu_functions.length : Int)) →
        runStep s oc = ([Event.invalidChoiceMsg], Control.cont))) ∧
    (pyInt s = none → pyLower s ≠ "menu".data → pyLower s ≠ "exit".data →
      runStep s oc = ([Event.enterNumberMsg], Control.cont)) := by
  constructor
  · intro n hpi
    have hm : pyLower s ≠ "menu".data := fun hh => by
      rw [pyInt_eq_none_of_lower_menu s hh] at hpi
      cases hpi
    have hex : pyLower s ≠ "exit".data := fun hh => by
      rw [pyInt_eq_none_of_lower_exit s hh] at hpi
      cases hpi
    constructor
    · intro hrange
      have hr : 0 ≤ n - 1 ∧ n - 1 < (menu_functions.length : Int) := by
        constructor <;> omega
      simp only [runStep, hpi]
      rw [if_neg hex, if_neg hm, if_pos hr]
      rfl
    · intro hrange
      have hr : ¬(0 ≤ n - 1 ∧ n - 1 < (menu_functions.length : Int)) := by
        intro hcon
        exact hrange ⟨by omega, by omega⟩
      simp only [runStep, hpi]
      rw [if_neg hex, if_neg hr, if_neg hm]
      rfl
  · intro hpi hm hex
    simp only [runStep, hpi]
    rw [if_neg hex, if_neg hm, if_neg hm]
    rfl

/-- Witness for C5 at the in-range input 3, the out-of-range input 99,
and the non-numeric input hello. -/
theorem run_numeric_dispatch_witness :
    runStep "3".data (fun _ => ActionOutcome.normal) =
      ([Event.actionInvoked 2], Control.cont) ∧
    runStep "99".data (fun _ => ActionOutcome.normal) =
      ([Event.invalidChoiceMsg], Control.cont) ∧
    runStep "hello".data (fun _ => ActionOutcome.normal) =
      ([Event.enterNumberMsg], Control.cont) := by
  refine ⟨?_, ?_, ?_⟩
  · have h := ((run_numeric_dispatch "3".data (fun _ => ActionOutcome.normal)).1 3
      (by decide)).1 (by decide)
    exact h.trans (by decide)
  · exact ((run_numeric_dispatch "99".data (fun _ => ActionOutcome.normal)).1 99
      (by decide)).2 (by decide)
  · exact (run_numeric_dispatch "hello".data (fun _ => ActionOutcome.normal)).2
      (by decide) (by decide) (by decide)

/-- C6: starting from an absent store file, create_thread with remote
id x writes exactly the singleton list with x; a second sequential call
with remote id y appends y after x without dropping it. -/
theorem create_thread_appends (x y : String) :
    create_thread none x =
      some (JVal.obj [("thread_ids", JVal.arr [JVal.str x])]) ∧
    create_thread (some (JVal.obj [("thread_ids", JVal.arr [JVal.str x])])) y =
      some (JVal.obj [("thread_ids", JVal.arr [JVal.str x, JVal.str y])]) := by
  exact ⟨rfl, rfl⟩

/-- C7: delete_thread with an empty id prints only the usage message,
making no remote call; with a non-empty id it issues exactly one remote
delete, then prints the success confirmation exactly when the response
deleted flag is true and the generic problem message exactly when it is
false. -/
theorem delete_thread_contract (tid : String) (deleted : Bool) :
    (tid = "" →
      delete_thread tid deleted = [ThreadDeleteEvent.usageMsg] ∧
      threadDeleteCalls (delete_thread tid deleted) = 0) ∧
    (tid ≠ "" →
      threadDeleteCalls (delete_thread tid deleted) = 1 ∧
      (ThreadDeleteEvent.successMsg ∈ delete_thread tid deleted ↔ deleted = true) ∧
      (ThreadDeleteEvent.problemMsg ∈ delete_thread tid deleted ↔ deleted = false)) := by
  constructor
  · intro h
    simp [delete_thread, h, threadDeleteCalls]
  · intro h
    cases deleted <;> simp [delete_thread, h, threadDeleteCalls]

/-- Witness for C7 at the empty id and at a non-empty id with a
failing remote response. -/
theorem delete_thread_contract_witness :
    delete_thread "" true = [ThreadDeleteEvent.usageMsg] ∧
    threadDeleteCalls (delete_thread "thr_1" false) = 1 ∧
    (ThreadDeleteEvent.problemMsg ∈ delete_thread "thr_1" false ↔ false = false) :=
  ⟨((delete_thread_contract "" true).1 rfl).1,
   ((delete_thread_contract "thr_1" false).2 (by decide)).1,
   ((delete_thread_contract "thr_1" false).2 (by decide)).2.2⟩

/-- C8: in upload_file, choice input stripping to 2 selects the
fine-tune purpose, stripping to 1 selects assistants, anything else
falls back to assistants, and for a non-empty openable path the file is
submitted with exactly that chosen purpose. -/
theorem upload_purpose_choice (choice path : String) (hp : path ≠ "") :
    upload_file path true choice = UploadResult.submitted (purposeFor choice) ∧
    (pyStrip choice = "2" → purposeFor choice = "fine-tune") ∧
    (pyStrip choice = "1" → purposeFor choice = "assistants") ∧
    (pyStrip choice ≠ "1" → pyStrip choice ≠ "2" → purposeFor choice = "assistants") := by
  refine ⟨by simp [upload_file, hp], ?_, ?_, ?_⟩
  · intro h
    simp [purposeFor, purpose_options, List.find?, h]
  · intro h
    simp [purposeFor, purpose_options, List.find?, h]
  · intro h1 h2
    have e1 : ("1" == pyStrip choice) = false := by
      simp [beq_eq_false_iff_ne]
      exact fun hh => h1 hh.symm
    have e2 : ("2" == pyStrip choice) = false := by
      simp [beq_eq_false_iff_ne]
      exact fun hh => h2 hh.symm
    simp [purposeFor, purpose_options, List.find?, e1, e2]

/-- Witness for C8 at choice inputs with surrounding whitespace and an
unrecognized value. -/
theorem upload_purpose_choice_witness :
    upload_file "data.jsonl" true " 2 " = UploadResult.submitted (purposeFor " 2 ") ∧
    purposeFor " 2 " = "fine-tune" ∧
    purposeFor "1" = "assistants" ∧
    purposeFor "yes" = "assistants" :=
  ⟨(upload_purpose_choice " 2 " "data.jsonl" (by decide)).1,
   (upload_purpose_choice " 2 " "data.jsonl" (by decide)).2.1 (by decide),
   (upload_purpose_choice "1" "data.jsonl" (by decide)).2.2.1 (by decide),
   (upload_purpose_choice "yes" "data.jsonl" (by decide)).2.2.2 (by decide) (by decide)⟩

/-- C9: delete_file with no explicit id and a nonempty fetched list of
N files: an entered line that fails int parsing prints the
invalid-input message with no delete call; a parsed index outside 1..N
prints the invalid-number message with no delete call; an index inside
1..N issues exactly one remote delete of that file id and prints the id
with the deletion flag. -/
theorem delete_file_prompt_validation (files : List RFile) (inp : List Char)
    (deleted : Bool) (hne : files ≠ []) :
    (pyInt inp = none →
      delete_file none files inp deleted =
        [FileDeleteEvent.fetchMsg, FileDeleteEvent.invalidInputMsg] ∧
      fileDeleteCalls (delete_file none files inp deleted) = 0) ∧
    (∀ n : Int, pyInt inp = some n → ¬(1 ≤ n ∧ n ≤ (files.length : Int)) →
      delete_file none files inp deleted =
        [FileDeleteEvent.fetchMsg, FileDeleteEvent.invalidNumberMsg] ∧
      fileDeleteCalls (delete_file none files inp deleted) = 0) ∧
    (∀ n : Int, pyInt inp = some n → 1 ≤ n → n ≤ (files.length : Int) →
      delete_file none files inp deleted =
        [FileDeleteEvent.fetchMsg,
         FileDeleteEvent.remoteDelete (files.getD (n - 1).toNat ⟨"", ""⟩).id,
         FileDeleteEvent.resultMsg (files.getD (n - 1).toNat ⟨"", ""⟩).id deleted] ∧
      fileDeleteCalls (delete_file none files inp deleted) = 1) := by
  have hie : files.isEmpty = false := by
    cases files with
    | nil => exact absurd rfl hne
    | cons a t => rfl
  refine ⟨?_, ?_, ?_⟩
  · intro hpi
    simp [delete_file, hie, hpi, fileDeleteCalls]
  · intro n hpi hrange
    have hr : ¬(0 ≤ n - 1 ∧ n - 1 < (files.length : Int)) := by
      intro hcon
      exact hrange ⟨by omega, by omega⟩
    simp only [delete_file, hie, hpi]
    rw [if_neg hr]
    simp [fileDeleteCalls]
  · intro n hpi h1 h2
    have hr : 0 ≤ n - 1 ∧ n - 1 < (files.length : Int) := ⟨by omega, by omega⟩
    simp only [delete_file, hie, hpi]
    rw [if_pos hr]
    simp [fileDeleteCalls]

/-- Witness for C9 on a two-file listing with a non-numeric line, an
out-of-range index, and the valid index 2. -/
theorem delete_file_prompt_validation_witness :
    delete_file none [⟨"a.txt", "file-1"⟩, ⟨"b.txt", "file-2"⟩] "abc".data true =
      [FileDeleteEvent.fetchMsg, FileDeleteEvent.invalidInputMsg] ∧
    delete_file none [⟨"a.txt", "file-1"⟩, ⟨"b.txt", "file-2"⟩] "5".data true =
      [FileDeleteEvent.fetchMsg, FileDeleteEvent.invalidNumberMsg] ∧
    fileDeleteCalls
      (delete_file none [⟨"a.txt", "file-1"⟩, ⟨"b.txt", "file-2"⟩] "2".data true) = 1 :=
  ⟨((delete_file_prompt_validation [⟨"a.txt", "file-1"⟩, ⟨"b.txt", "file-2"⟩]
      "abc".data true (by decide)).1 (by decide)).1,
   ((delete_file_prompt_validation [⟨"a.txt", "file-1"⟩, ⟨"b.txt", "file-2"⟩]
      "5".data true (by decide)).2.1 5 (by decide) (by decide)).1,
   ((delete_file_prompt_validation [⟨"a.txt", "file-1"⟩, ⟨"b.txt", "file-2"⟩]
      "2".data true (by decide)).2.2 2 (by decide) (by decide) (by decide)).2⟩

/-- C10: when the store file parses as a JSON object without the
thread_ids key, the dict.get default makes both readers treat it as
empty: list_threads prints the no-thread-IDs message, and create_thread
writes a store holding exactly the one new id. -/
theorem missing_key_treated_as_empty (fields : List (String × JVal)) (x : String)
    (h : jGet fields "thread_ids" = none) :
    list_threads (some (JVal.obj fields)) = ListThreadsResult.noneStoredMsg ∧
    create_thread (some (JVal.obj fields)) x =
      some (JVal.obj [("thread_ids", JVal.arr [JVal.str x])]) := by
  constructor
  · simp [list_threads, h, jTruthy]
  · simp [create_thread, storedThreadIds, h]

/-- Witness for C10 on a store object with one unrelated key. -/
theorem missing_key_treated_as_empty_witness :
    list_threads (some (JVal.obj [("foo", JVal.null)])) =
      ListThreadsResult.noneStoredMsg ∧
    create_thread (some (JVal.obj [("foo", JVal.null)])) "thr_abc" =
      some (JVal.obj [("thread_ids", JVal.arr [JVal.str "thr_abc"])]) :=
  missing_key_treated_as_empty [("foo", JVal.null)] "thr_abc" rfl

end OaiTools
